import Mathlib

/-!
# FamBudget — verification of the rollover and balance-projection engine

Shallow embedding of the core logic of the FamBudget household budgeting
dashboard: month-key utilities, the balance projection engine
(`calculateCurrentBalance`, `getActualBalanceForMonth`), budget
aggregation (`calculateMemberSummary`, `calculateHouseholdSummary`) and
the carry-over orchestrator (`carryOverExpenses`,
`autoCarryForwardFromPreviousMonth`).

Monetary amounts are embedded as rationals (the source uses JS numbers;
all concrete test amounts here are exactly representable).  JS `Date`
month normalization is embedded with floor division / euclidean
remainder, matching `new Date(y, mi, 1)` for any integer month index.
-/

namespace FamBudget

/-- A calendar month, canonical `YYYY-MM`.  The source passes such keys
as strings; parsing `YYYY-MM` yields the (year, month) pair, month
1-based. -/
structure MonthKey where
  year : Int
  month : Int
  deriving DecidableEq, Repr

/-- A month key is valid when its month component is in `1..12`
(the `YYYY-MM` format constraint). -/
def MonthKey.valid (k : MonthKey) : Prop := 1 ≤ k.month ∧ k.month ≤ 12

instance (k : MonthKey) : Decidable k.valid := by
  unfold MonthKey.valid; infer_instance

/-- String comparison `a <= b` on zero-padded `YYYY-MM` keys equals the
(year, month) lexicographic order; the source compares the raw strings
(`e.month <= upToMonth`), valid because the format is fixed-width. -/
def MonthKey.le (a b : MonthKey) : Bool :=
  decide (a.year < b.year) || (decide (a.year = b.year) && decide (a.month ≤ b.month))

/-- JS `new Date(y, mi, 1)` month normalization: the (year, 0-based
month index) pair is normalized so the index lands in `0..11`, carrying
into the year with floor semantics (index `-1` becomes December of the
previous year). -/
def jsDateNorm (y mi : Int) : Int × Int := (y + Int.fdiv mi 12, Int.emod mi 12)

/-- `getPreviousMonth` (src/src/hooks/useBudget.ts): build
`Date(year, month-1, 1)`, `setMonth(getMonth() - 1)`, re-format as
`YYYY-MM`.  The Date arithmetic is the normalization of month index
`(month - 1) - 1`. -/
def getPreviousMonth (k : MonthKey) : MonthKey :=
  let n := jsDateNorm k.year (k.month - 1 - 1)
  ⟨n.1, n.2 + 1⟩

/-- The months-elapsed computation of `calculateCurrentBalance`
(src/unnamed/part_010, `useBalances`): both keys are turned into
`Date(y, m-1, 1)` and the difference is
`(yearDiff) * 12 + (monthIndexDiff)` on the normalized dates. -/
def monthsElapsed (a b : MonthKey) : Int :=
  let na := jsDateNorm a.year (a.month - 1)
  let nb := jsDateNorm b.year (b.month - 1)
  (nb.1 - na.1) * 12 + (nb.2 - na.2)

/-- `calculateCurrentBalance(initialBalance, monthlyDeduction,
startMonth, currentMonth)` (src/unnamed/part_010): schedule projection
of a balance account.  Before the start month the balance is the
initial balance; otherwise `monthsElapsed + 1` deductions are
subtracted (the start month itself counts as one) and the result floors
at zero. -/
def calculateCurrentBalance (initialBalance monthlyDeduction : ℚ)
    (startMonth currentMonth : MonthKey) : ℚ :=
  let e := monthsElapsed startMonth currentMonth
  if e < 0 then
    initialBalance
  else
    max 0 (initialBalance - monthlyDeduction * ((e : ℚ) + 1))

/-- `String(x).padStart(2, '0')` as used for the month component when
re-formatting a key. -/
def pad2 (m : Int) : String :=
  if (toString m).length < 2 then "0" ++ toString m else toString m

/-- Formatting a month pair back to its `YYYY-MM` string
(`${date.getFullYear()}-${String(date.getMonth() + 1).padStart(2, '0')}`). -/
def formatMonthKey (k : MonthKey) : String :=
  toString k.year ++ "-" ++ pad2 k.month

/-- `FamilyMember` (src/src/types/budget.ts): the closed two-member
enumeration. -/
inductive FamilyMember where
  | Nikkie : FamilyMember
  | Hein : FamilyMember
  deriving DecidableEq, Repr

/-- `IncomeType` (src/src/types/budget.ts). -/
inductive IncomeType where
  | Salary : IncomeType
  | Other : IncomeType
  deriving DecidableEq, Repr

/-- `Income` row (src/src/types/budget.ts / table `incomes`). -/
structure Income where
  id : String
  member : FamilyMember
  income_type : IncomeType
  description : String
  amount : ℚ
  month : MonthKey
  created_at : String
  deriving DecidableEq, Repr

/-- `Tax` row (src/src/types/budget.ts / table `taxes`). -/
structure Tax where
  id : String
  member : FamilyMember
  description : String
  amount : ℚ
  month : MonthKey
  created_at : String
  deriving DecidableEq, Repr

/-- `Expense` row (src/src/types/budget.ts / table `expenses`; the
table additionally carries `include_vat`, copied by the automatic
carry-forward). -/
structure Expense where
  id : String
  member : FamilyMember
  category : String
  description : String
  amount : ℚ
  month : MonthKey
  is_shared : Bool
  is_recurring : Bool
  is_paid : Bool
  include_vat : Bool
  note : Option String
  balance_account_id : Option String
  created_at : String
  deriving DecidableEq, Repr

/-- `UnnecessaryExpense` row (src/src/types/budget.ts / table
`unnecessary_expenses`). -/
structure UnnecessaryExpense where
  id : String
  member : FamilyMember
  description : String
  amount : ℚ
  month : MonthKey
  note : Option String
  created_at : String
  deriving DecidableEq, Repr

/-- `BalanceAccount` row (src/src/types/budget.ts / table
`balance_accounts`). -/
structure BalanceAccount where
  id : String
  name : String
  description : String
  initial_balance : ℚ
  monthly_deduction : ℚ
  start_month : MonthKey
  created_at : String
  deriving DecidableEq, Repr

/-- `MemberSummary` (src/src/types/budget.ts). -/
structure MemberSummary where
  member : FamilyMember
  grossIncome : ℚ
  otherIncome : ℚ
  totalIncome : ℚ
  totalTaxes : ℚ
  netIncome : ℚ
  totalExpenses : ℚ
  totalUnnecessaryExpenses : ℚ
  remainingBalance : ℚ
  deriving DecidableEq, Repr

/-- `HouseholdSummary` (src/src/types/budget.ts). -/
structure HouseholdSummary where
  grossIncome : ℚ
  otherIncome : ℚ
  totalIncome : ℚ
  totalTaxes : ℚ
  netIncome : ℚ
  totalExpenses : ℚ
  totalUnnecessaryExpenses : ℚ
  remainingBalance : ℚ
  nikkieSummary : MemberSummary
  heinSummary : MemberSummary
  deriving DecidableEq, Repr

/-- JS `reduce((sum, x) => sum + f(x), 0)` over a row list. -/
def sumBy {α : Type} (f : α → ℚ) (l : List α) : ℚ :=
  l.foldl (fun s a => s + f a) 0

/-- `calculateMemberSummary` (src/src/hooks/useBudget.ts): fold one
member's income/tax/expense/discretionary rows into a `MemberSummary`. -/
def calculateMemberSummary (member : FamilyMember) (incomes : List Income)
    (taxes : List Tax) (expenses : List Expense)
    (unnecessaryExpenses : List UnnecessaryExpense) : MemberSummary :=
  let memberIncomes := incomes.filter (fun i => i.member == member)
  let memberTaxes := taxes.filter (fun t => t.member == member)
  let memberExpenses := expenses.filter (fun e => e.member == member)
  let memberUnnecessaryExpenses := unnecessaryExpenses.filter (fun u => u.member == member)
  let grossIncome := sumBy Income.amount (memberIncomes.filter (fun i => i.income_type == IncomeType.Salary))
  let otherIncome := sumBy Income.amount (memberIncomes.filter (fun i => i.income_type == IncomeType.Other))
  let totalIncome := grossIncome + otherIncome
  let totalTaxes := sumBy Tax.amount memberTaxes
  let totalExpenses := sumBy Expense.amount memberExpenses
  let totalUnnecessaryExpenses := sumBy UnnecessaryExpense.amount memberUnnecessaryExpenses
  let netIncome := grossIncome - totalTaxes + otherIncome
  let remainingBalance := netIncome - totalExpenses - totalUnnecessaryExpenses
  { member := member
    grossIncome := grossIncome
    otherIncome := otherIncome
    totalIncome := totalIncome
    totalTaxes := totalTaxes
    netIncome := netIncome
    totalExpenses := totalExpenses
    totalUnnecessaryExpenses := totalUnnecessaryExpenses
    remainingBalance := remainingBalance }

/-- `calculateHouseholdSummary` (src/src/hooks/useBudget.ts): the two
member summaries plus each numeric field combined across them. -/
def calculateHouseholdSummary (incomes : List Income) (taxes : List Tax)
    (expenses : List Expense)
    (unnecessaryExpenses : List UnnecessaryExpense) : HouseholdSummary :=
  let nikkieSummary := calculateMemberSummary FamilyMember.Nikkie incomes taxes expenses unnecessaryExpenses
  let heinSummary := calculateMemberSummary FamilyMember.Hein incomes taxes expenses unnecessaryExpenses
  let grossIncome := nikkieSummary.grossIncome + heinSummary.grossIncome
  let otherIncome := nikkieSummary.otherIncome + heinSummary.otherIncome
  let totalIncome := nikkieSummary.totalIncome + heinSummary.totalIncome
  let totalTaxes := nikkieSummary.totalTaxes + heinSummary.totalTaxes
  let totalExpenses := nikkieSummary.totalExpenses + heinSummary.totalExpenses
  let totalUnnecessaryExpenses := nikkieSummary.totalUnnecessaryExpenses + heinSummary.totalUnnecessaryExpenses
  let netIncome := grossIncome - totalTaxes + otherIncome
  let remainingBalance := netIncome - totalExpenses - totalUnnecessaryExpenses
  { grossIncome := grossIncome
    otherIncome := otherIncome
    totalIncome := totalIncome
    totalTaxes := totalTaxes
    netIncome := netIncome
    totalExpenses := totalExpenses
    totalUnnecessaryExpenses := totalUnnecessaryExpenses
    remainingBalance := remainingBalance
    nikkieSummary := nikkieSummary
    heinSummary := heinSummary }

/-- `getTotalPaidUpToMonth` (src/src/components/BalanceTracker.tsx):
sum of paid expenses linked to the account whose month is at or before
the cutoff (string comparison on zero-padded keys). -/
def getTotalPaidUpToMonth (paidExpenses : List Expense) (accountId : String)
    (upToMonth : MonthKey) : ℚ :=
  sumBy Expense.amount
    (paidExpenses.filter
      (fun e => (e.balance_account_id == some accountId) && e.is_paid && e.month.le upToMonth))

/-- `getActualBalanceForMonth` (src/src/components/BalanceTracker.tsx):
actual-payment projection `max(0, initial_balance - totalPaid)`. -/
def getActualBalanceForMonth (paidExpenses : List Expense)
    (account : BalanceAccount) (month : MonthKey) : ℚ :=
  max 0 (account.initial_balance - getTotalPaidUpToMonth paidExpenses account.id month)

/-- `getBalanceForMonth` (src/src/components/BalanceTracker.tsx):
schedule projection, delegating to `calculateCurrentBalance`. -/
def getBalanceForMonth (account : BalanceAccount) (month : MonthKey) : ℚ :=
  calculateCurrentBalance account.initial_balance account.monthly_deduction
    account.start_month month

/-- The per-cell difference in the monthly projection table
(src/src/components/BalanceTracker.tsx): `projectedBalance -
actualBalance`, i.e. schedule minus actual. -/
def projectionDiff (paidExpenses : List Expense) (account : BalanceAccount)
    (month : MonthKey) : ℚ :=
  getBalanceForMonth account month - getActualBalanceForMonth paidExpenses account month

/-- The CSS class attached to a non-zero projection difference
(src/src/components/BalanceTracker.tsx): `diff > 0 ? 'behind' : 'ahead'`. -/
def diffClass (d : ℚ) : String :=
  if 0 < d then "behind" else "ahead"

/-- A JS number that may be non-finite: `none` models the NaN/Infinity
produced by dividing by zero. -/
def jsDiv (a b : ℚ) : Option ℚ :=
  if b = 0 then none else some (a / b)

/-- `progressPercentage` (src/src/components/BalanceTracker.tsx):
`((initial_balance - actualBalance) / initial_balance) * 100`, with no
guard against a zero `initial_balance`. -/
def progressPercentage (account : BalanceAccount) (actualBalance : ℚ) : Option ℚ :=
  (jsDiv (account.initial_balance - actualBalance) account.initial_balance).map
    (fun q => q * 100)

/-- The insert payload built by the manual `carryOverExpenses`
(src/src/hooks/useBudget.ts): only `member`, `category`, `description`,
`amount` and the target `month` are supplied to the store. -/
structure ExpenseCarryPayload where
  member : FamilyMember
  category : String
  description : String
  amount : ℚ
  month : MonthKey
  deriving DecidableEq, Repr

/-- The payload construction of `carryOverExpenses`
(src/src/hooks/useBudget.ts): one payload per selected source expense,
month set to the selected month. -/
def carryOverExpensePayloads (selectedMonth : MonthKey)
    (expensesToCarry : List Expense) : List ExpenseCarryPayload :=
  expensesToCarry.map (fun expense =>
    { member := expense.member
      category := expense.category
      description := expense.description
      amount := expense.amount
      month := selectedMonth })

/-- The store row produced by inserting a manual carry-over payload:
columns absent from the payload take the `expenses` table defaults
(src/supabase-schema.sql): `is_shared`, `is_recurring`, `is_paid`,
`include_vat` default `FALSE`; `note` and `balance_account_id` default
`NULL`; `id` and `created_at` are freshly generated. -/
def insertCarriedExpense (payload : ExpenseCarryPayload) (freshId : String)
    (freshCreatedAt : String) : Expense :=
  { id := freshId
    member := payload.member
    category := payload.category
    description := payload.description
    amount := payload.amount
    month := payload.month
    is_shared := false
    is_recurring := false
    is_paid := false
    include_vat := false
    note := none
    balance_account_id := none
    created_at := freshCreatedAt }

/-- The insert payload built for incomes by
`autoCarryForwardFromPreviousMonth` (src/src/hooks/useBudget.ts). -/
structure IncomeCarryPayload where
  member : FamilyMember
  income_type : IncomeType
  description : String
  amount : ℚ
  month : MonthKey
  deriving DecidableEq, Repr

/-- The insert payload built for taxes by
`autoCarryForwardFromPreviousMonth` (src/src/hooks/useBudget.ts). -/
structure TaxCarryPayload where
  member : FamilyMember
  description : String
  amount : ℚ
  month : MonthKey
  deriving DecidableEq, Repr

/-- The insert payload built for expenses by
`autoCarryForwardFromPreviousMonth` (src/src/hooks/useBudget.ts): the
automatic path copies every mutable column. -/
structure AutoExpenseCarryPayload where
  member : FamilyMember
  category : String
  description : String
  amount : ℚ
  is_shared : Bool
  is_recurring : Bool
  is_paid : Bool
  include_vat : Bool
  note : Option String
  balance_account_id : Option String
  month : MonthKey
  deriving DecidableEq, Repr

/-- `newIncomes` construction of the automatic carry-forward. -/
def autoIncomePayloads (selectedMonth : MonthKey) (prev : List Income) :
    List IncomeCarryPayload :=
  prev.map (fun income =>
    { member := income.member
      income_type := income.income_type
      description := income.description
      amount := income.amount
      month := selectedMonth })

/-- `newTaxes` construction of the automatic carry-forward. -/
def autoTaxPayloads (selectedMonth : MonthKey) (prev : List Tax) :
    List TaxCarryPayload :=
  prev.map (fun tax =>
    { member := tax.member
      description := tax.description
      amount := tax.amount
      month := selectedMonth })

/-- `newExpenses` construction of the automatic carry-forward. -/
def autoExpensePayloads (selectedMonth : MonthKey) (prev : List Expense) :
    List AutoExpenseCarryPayload :=
  prev.map (fun expense =>
    { member := expense.member
      category := expense.category
      description := expense.description
      amount := expense.amount
      is_shared := expense.is_shared
      is_recurring := expense.is_recurring
      is_paid := expense.is_paid
      include_vat := expense.include_vat
      note := expense.note
      balance_account_id := expense.balance_account_id
      month := selectedMonth })

/-- Outcomes of the store operations issued during one automatic
carry-forward attempt: whether the previous-month fetch succeeds, the
previous month's rows when it does, and whether each of the three
insert batches succeeds. -/
structure CarryEnv where
  fetchOk : Bool
  prevIncomes : List Income
  prevTaxes : List Tax
  prevExpenses : List Expense
  insertIncomesOk : Bool
  insertTaxesOk : Bool
  insertExpensesOk : Bool
  deriving Repr

/-- Observable result of a month-selection attempt: the session guard
set `carriedOverMonths` afterwards, the rows actually inserted into the
store (in insertion order by kind), and the boolean the carry-forward
returned. -/
structure CarryResult where
  carriedMonths : List MonthKey
  insertedIncomes : List IncomeCarryPayload
  insertedTaxes : List TaxCarryPayload
  insertedExpenses : List AutoExpenseCarryPayload
  success : Bool
  deriving Repr

/-- `autoCarryForwardFromPreviousMonth` (src/src/hooks/useBudget.ts),
entered with the selected month already in the guard set: fetch the
previous month's rows; if all empty, succeed with nothing to copy;
otherwise insert the non-empty income, tax, expense batches in that
order.  Any thrown error (fetch or insert) is caught, the month is
removed from the guard set, and `false` is returned; earlier inserts of
the same attempt are left in place. -/
def autoCarryForwardFromPreviousMonth (carried : List MonthKey)
    (selectedMonth : MonthKey) (env : CarryEnv) : CarryResult :=
  if !env.fetchOk then
    { carriedMonths := carried.erase selectedMonth
      insertedIncomes := []
      insertedTaxes := []
      insertedExpenses := []
      success := false }
  else if env.prevIncomes.isEmpty && env.prevTaxes.isEmpty && env.prevExpenses.isEmpty then
    { carriedMonths := carried
      insertedIncomes := []
      insertedTaxes := []
      insertedExpenses := []
      success := true }
  else
    let newIncomes := autoIncomePayloads selectedMonth env.prevIncomes
    let newTaxes := autoTaxPayloads selectedMonth env.prevTaxes
    let newExpenses := autoExpensePayloads selectedMonth env.prevExpenses
    if !newIncomes.isEmpty && !env.insertIncomesOk then
      { carriedMonths := carried.erase selectedMonth
        insertedIncomes := []
        insertedTaxes := []
        insertedExpenses := []
        success := false }
    else if !newTaxes.isEmpty && !env.insertTaxesOk then
      { carriedMonths := carried.erase selectedMonth
        insertedIncomes := newIncomes
        insertedTaxes := []
        insertedExpenses := []
        success := false }
    else if !newExpenses.isEmpty && !env.insertExpensesOk then
      { carriedMonths := carried.erase selectedMonth
        insertedIncomes := newIncomes
        insertedTaxes := newTaxes
        insertedExpenses := []
        success := false }
    else
      { carriedMonths := carried
        insertedIncomes := newIncomes
        insertedTaxes := newTaxes
        insertedExpenses := newExpenses
        success := true }

/-- The auto-carry decision inside `fetchData`
(src/src/hooks/useBudget.ts): when the selected month has no income,
tax or expense rows and is not in the session guard set, the month is
added to the guard set and only then the carry-forward attempt runs;
otherwise nothing is copied and the guard set is unchanged. -/
def fetchDataCarryStep (carried : List MonthKey) (selectedMonth : MonthKey)
    (monthEmpty : Bool) (env : CarryEnv) : CarryResult :=
  if monthEmpty && !carried.contains selectedMonth then
    autoCarryForwardFromPreviousMonth (selectedMonth :: carried) selectedMonth env
  else
    { carriedMonths := carried
      insertedIncomes := []
      insertedTaxes := []
      insertedExpenses := []
      success := true }

/-! ## Helper lemmas -/

lemma foldl_add_generalized {α : Type} (f : α → ℚ) (l : List α) :
    ∀ init : ℚ, l.foldl (fun s a => s + f a) init = init + (l.map f).sum := by
  induction l with
  | nil => intro init; simp
  | cons a t ih => intro init; simp only [List.foldl, List.map, List.sum_cons, ih]; ring

lemma sumBy_eq_sum_map {α : Type} (f : α → ℚ) (l : List α) :
    sumBy f l = (l.map f).sum := by
  simpa using foldl_add_generalized f l 0

lemma jsDateNorm_neg_one (y : Int) : jsDateNorm y (-1) = (y - 1, 11) := by
  unfold jsDateNorm
  rw [show Int.fdiv (-1) 12 = -1 from rfl, show Int.emod (-1) 12 = 11 from rfl]
  norm_num
  ring

lemma jsDateNorm_small (y x : Int) (h1 : 0 ≤ x) (h2 : x < 12) :
    jsDateNorm y x = (y, x) := by
  unfold jsDateNorm
  have h : Int.fdiv x 12 = 0 ∧ Int.emod x 12 = x := by
    interval_cases x <;> exact ⟨rfl, rfl⟩
  rw [h.1, h.2]
  simp

lemma getPreviousMonth_eq (k : MonthKey) (hk : k.valid) :
    getPreviousMonth k =
      if k.month = 1 then ⟨k.year - 1, 12⟩ else ⟨k.year, k.month - 1⟩ := by
  obtain ⟨h1, h2⟩ := hk
  by_cases hm : k.month = 1
  · simp only [getPreviousMonth, hm, if_pos]
    rw [show (1 : Int) - 1 - 1 = -1 from rfl, jsDateNorm_neg_one]
    norm_num
  · rw [if_neg hm]
    simp only [getPreviousMonth]
    rw [jsDateNorm_small k.year (k.month - 1 - 1) (by omega) (by omega)]
    show MonthKey.mk k.year (k.month - 1 - 1 + 1) = _
    congr 1
    omega

lemma monthsElapsed_formula (a b : MonthKey) (ha : a.valid) (hb : b.valid) :
    monthsElapsed a b = (b.year - a.year) * 12 + (b.month - a.month) := by
  obtain ⟨ha1, ha2⟩ := ha
  obtain ⟨hb1, hb2⟩ := hb
  simp only [monthsElapsed]
  rw [jsDateNorm_small a.year (a.month - 1) (by omega) (by omega),
    jsDateNorm_small b.year (b.month - 1) (by omega) (by omega)]
  ring

lemma getPreviousMonth_valid (k : MonthKey) (hk : k.valid) :
    (getPreviousMonth k).valid := by
  rw [getPreviousMonth_eq k hk]
  obtain ⟨h1, h2⟩ := hk
  by_cases hm : k.month = 1
  · rw [if_pos hm]; exact ⟨by norm_num, by norm_num⟩
  · rw [if_neg hm]; exact ⟨by simp; omega, by simp; omega⟩

lemma monthsElapsed_getPreviousMonth (k : MonthKey) (hk : k.valid) :
    monthsElapsed (getPreviousMonth k) k = 1 := by
  rw [monthsElapsed_formula _ k (getPreviousMonth_valid k hk) hk, getPreviousMonth_eq k hk]
  by_cases hm : k.month = 1
  · rw [if_pos hm, hm]; ring
  · rw [if_neg hm]; ring

lemma pad2_length (m : Int) (h1 : 1 ≤ m) (h2 : m ≤ 12) : (pad2 m).length = 2 := by
  interval_cases m <;> rfl

lemma salary_beq_other : (IncomeType.Salary == IncomeType.Other) = false := rfl

lemma other_beq_salary : (IncomeType.Other == IncomeType.Salary) = false := rfl

/-! ## Claim theorems -/

/-- C1: for a balance account with nonnegative `initialBalance` and
`monthlyDeduction` and any target month `m`, the schedule projection
`calculateCurrentBalance` returns `initialBalance` when
`monthsElapsed(startMonth, m) < 0`, and otherwise
`max(0, initialBalance - monthlyDeduction * (monthsElapsed + 1))`,
the start month itself counting as one deduction; `monthsElapsed` is
the signed formula `(m.year - start.year) * 12 + (m.month - start.month)`. -/
theorem scheduleBalance_spec (initialBalance monthlyDeduction : ℚ)
    (hinit : 0 ≤ initialBalance) (hded : 0 ≤ monthlyDeduction)
    (startMonth m : MonthKey) (hs : startMonth.valid) (hm : m.valid) :
    ((m.year - startMonth.year) * 12 + (m.month - startMonth.month) < 0 →
      calculateCurrentBalance initialBalance monthlyDeduction startMonth m = initialBalance) ∧
    (0 ≤ (m.year - startMonth.year) * 12 + (m.month - startMonth.month) →
      calculateCurrentBalance initialBalance monthlyDeduction startMonth m =
        max 0 (initialBalance - monthlyDeduction *
          ((((m.year - startMonth.year) * 12 + (m.month - startMonth.month) : ℤ) : ℚ) + 1))) := by
  have he := monthsElapsed_formula startMonth m hs hm
  simp only [calculateCurrentBalance, he]
  constructor
  · intro h
    rw [if_pos h]
  · intro h
    rw [if_neg (not_lt.mpr h)]

/-- Witness for C1: both branches at concrete accounts; the spec's
worked schedule example `12000 - 1000 * 3 = 9000` at month `2025-03`,
and a start month strictly after the target month. -/
theorem scheduleBalance_spec_witness :
    calculateCurrentBalance 12000 1000 ⟨2025, 1⟩ ⟨2025, 3⟩ = 9000 ∧
    calculateCurrentBalance 12000 1000 ⟨2025, 6⟩ ⟨2025, 3⟩ = 12000 := by
  constructor
  · rw [(scheduleBalance_spec 12000 1000 (by norm_num) (by norm_num) ⟨2025, 1⟩ ⟨2025, 3⟩
      (by decide) (by decide)).2 (by decide)]
    norm_num
  · exact (scheduleBalance_spec 12000 1000 (by norm_num) (by norm_num) ⟨2025, 6⟩ ⟨2025, 3⟩
      (by decide) (by decide)).1 (by decide)

/-- C9: for a valid month key `k`, `getPreviousMonth` subtracts one
month, rolling the year at January, keeps the month component
zero-padded to two characters, `monthsElapsed` is the signed formula
`(b.year - a.year) * 12 + (b.month - a.month)`, and consequently
`monthsElapsed (getPreviousMonth k) k = 1`. -/
theorem monthKey_predecessor_spec (k : MonthKey) (hk : k.valid) :
    (k.month = 1 → getPreviousMonth k = ⟨k.year - 1, 12⟩) ∧
    (1 < k.month → getPreviousMonth k = ⟨k.year, k.month - 1⟩) ∧
    (∀ a b : MonthKey, a.valid → b.valid →
        monthsElapsed a b = (b.year - a.year) * 12 + (b.month - a.month)) ∧
    monthsElapsed (getPreviousMonth k) k = 1 ∧
    (pad2 (getPreviousMonth k).month).length = 2 := by
  refine ⟨?_, ?_, fun a b ha hb => monthsElapsed_formula a b ha hb,
    monthsElapsed_getPreviousMonth k hk, ?_⟩
  · intro h1
    rw [getPreviousMonth_eq k hk, if_pos h1]
  · intro h1
    rw [getPreviousMonth_eq k hk, if_neg (by omega)]
  · have hv := getPreviousMonth_valid k hk
    exact pad2_length _ hv.1 hv.2

/-- Witness for C9: the year rolls from `2025-01` to `2024-12`, the
elapsed-month count across that boundary is `1`, and a mid-year key
behaves the same. -/
theorem monthKey_predecessor_spec_witness :
    getPreviousMonth ⟨2025, 1⟩ = ⟨2024, 12⟩ ∧
    monthsElapsed ⟨2024, 12⟩ ⟨2025, 1⟩ = 1 ∧
    monthsElapsed (getPreviousMonth ⟨2025, 3⟩) ⟨2025, 3⟩ = 1 := by
  refine ⟨(monthKey_predecessor_spec ⟨2025, 1⟩ (by decide)).1 rfl, ?_,
    (monthKey_predecessor_spec ⟨2025, 3⟩ (by decide)).2.2.2.1⟩
  rw [(monthKey_predecessor_spec ⟨2025, 1⟩ (by decide)).2.2.1 ⟨2024, 12⟩ ⟨2025, 1⟩
    (by decide) (by decide)]
  decide

/-! ## Concrete rows used by the spec's worked scenarios -/

/-- The spec's worked balance account: `initialBalance = 12000.00`,
`monthlyDeduction = 1000.00`, `startMonth = 2025-01`. -/
def exAccount : BalanceAccount :=
  { id := "acc1", name := "Car Loan", description := "", initial_balance := 12000,
    monthly_deduction := 1000, start_month := ⟨2025, 1⟩, created_at := "t0" }

/-- The spec's worked payment: one paid expense of `500.00` against
`exAccount` in `2025-02`. -/
def exPaidExpense : Expense :=
  { id := "e500", member := FamilyMember.Nikkie, category := "Other",
    description := "Loan payment", amount := 500, month := ⟨2025, 2⟩,
    is_shared := false, is_recurring := false, is_paid := true, include_vat := false,
    note := none, balance_account_id := some "acc1", created_at := "t1" }

/-- A paid expense larger than the scheduled deductions, used to
exercise the positive-difference branch of the reconciliation view. -/
def exBigPaidExpense : Expense :=
  { id := "e5000", member := FamilyMember.Nikkie, category := "Other",
    description := "Extra payment", amount := 5000, month := ⟨2025, 1⟩,
    is_shared := false, is_recurring := false, is_paid := true, include_vat := false,
    note := none, balance_account_id := some "acc1", created_at := "t2" }

/-- A balance account with `initial_balance = 0`, the division-by-zero
input of the progress percentage. -/
def zeroAccount : BalanceAccount :=
  { id := "z1", name := "Zero", description := "", initial_balance := 0,
    monthly_deduction := 0, start_month := ⟨2025, 1⟩, created_at := "t0" }

/-- Member A's Salary income `20000.00` in `2025-01` (spec scenario). -/
def exSalaryIncome : Income :=
  { id := "i1", member := FamilyMember.Nikkie, income_type := IncomeType.Salary,
    description := "Salary", amount := 20000, month := ⟨2025, 1⟩, created_at := "t1" }

/-- Member A's tax `3000.00` in `2025-01` (spec scenario). -/
def exTax : Tax :=
  { id := "x1", member := FamilyMember.Nikkie, description := "PAYE",
    amount := 3000, month := ⟨2025, 1⟩, created_at := "t2" }

/-- Member A's Groceries expense `1500.00`, not shared, in `2025-01`
(spec scenario). -/
def exGroceries : Expense :=
  { id := "g1", member := FamilyMember.Nikkie, category := "Groceries",
    description := "Groceries", amount := 1500, month := ⟨2025, 1⟩,
    is_shared := false, is_recurring := false, is_paid := false, include_vat := false,
    note := none, balance_account_id := none, created_at := "t3" }

/-- A recurring rent expense of the previous month, the input on which
the manual carry-over loses fields. -/
def exRecurringRent : Expense :=
  { id := "r1", member := FamilyMember.Nikkie, category := "Housing",
    description := "Rent", amount := 8000, month := ⟨2025, 1⟩,
    is_shared := true, is_recurring := true, is_paid := true, include_vat := false,
    note := some "pay by the 1st", balance_account_id := some "acc1", created_at := "t4" }

/-! ## More claim theorems -/

/-- C2: the actual-payment projection equals
`max(0, initialBalance - S)` where `S` sums `amount` over exactly the
expenses linked to the account (`balance_account_id` matches), marked
paid, with month at or before `m` inclusive; on the empty expense list
it returns the (nonnegative) initial balance unchanged. -/
theorem actualBalance_spec (account : BalanceAccount) (m : MonthKey)
    (expenses : List Expense) :
    getActualBalanceForMonth expenses account m =
      max 0 (account.initial_balance -
        ((expenses.filter (fun e =>
            (e.balance_account_id == some account.id) && e.is_paid && e.month.le m)).map
          Expense.amount).sum) ∧
    (0 ≤ account.initial_balance →
      getActualBalanceForMonth [] account m = account.initial_balance) := by
  constructor
  · simp only [getActualBalanceForMonth, getTotalPaidUpToMonth, sumBy_eq_sum_map]
  · intro h
    simp only [getActualBalanceForMonth, getTotalPaidUpToMonth, sumBy, List.filter,
      List.foldl, sub_zero]
    exact max_eq_right h

/-- Witness for C2: the worked account has `12000.00` actual balance
with no recorded payments, and `11500.00` after the single `500.00`
paid expense of `2025-02`. -/
theorem actualBalance_spec_witness :
    getActualBalanceForMonth [] exAccount ⟨2025, 3⟩ = 12000 ∧
    getActualBalanceForMonth [exPaidExpense] exAccount ⟨2025, 3⟩ =
      max 0 (12000 - 500 : ℚ) := by
  constructor
  · exact (actualBalance_spec exAccount ⟨2025, 3⟩ []).2 (by norm_num [exAccount])
  · rw [(actualBalance_spec exAccount ⟨2025, 3⟩ [exPaidExpense]).1]
    norm_num [exAccount, exPaidExpense, MonthKey.le]

/-- C5: `calculateMemberSummary` sums the member's Salary incomes into
`grossIncome`, the member's Other incomes into `otherIncome`, computes
`netIncome = grossIncome - totalTaxes + otherIncome`, sums the member's
pre-VAT expense amounts into `totalExpenses`, and computes
`remainingBalance = netIncome - totalExpenses - totalDiscretionary`;
the spec's worked scenario (Salary 20000, tax 3000, one 1500 expense)
yields `grossIncome = 20000`, `netIncome = 17000`,
`totalExpenses = 1500`, `remainingBalance = 15500`. -/
theorem memberSummary_spec (member : FamilyMember) (incomes : List Income)
    (taxes : List Tax) (expenses : List Expense)
    (unnecessary : List UnnecessaryExpense) :
    (calculateMemberSummary member incomes taxes expenses unnecessary).grossIncome =
      ((incomes.filter (fun i =>
          i.member == member && i.income_type == IncomeType.Salary)).map
        Income.amount).sum ∧
    (calculateMemberSummary member incomes taxes expenses unnecessary).otherIncome =
      ((incomes.filter (fun i =>
          i.member == member && i.income_type == IncomeType.Other)).map
        Income.amount).sum ∧
    (calculateMemberSummary member incomes taxes expenses unnecessary).totalTaxes =
      ((taxes.filter (fun t => t.member == member)).map Tax.amount).sum ∧
    (calculateMemberSummary member incomes taxes expenses unnecessary).netIncome =
      (calculateMemberSummary member incomes taxes expenses unnecessary).grossIncome -
        (calculateMemberSummary member incomes taxes expenses unnecessary).totalTaxes +
        (calculateMemberSummary member incomes taxes expenses unnecessary).otherIncome ∧
    (calculateMemberSummary member incomes taxes expenses unnecessary).totalExpenses =
      ((expenses.filter (fun e => e.member == member)).map Expense.amount).sum ∧
    (calculateMemberSummary member incomes taxes expenses unnecessary).remainingBalance =
      (calculateMemberSummary member incomes taxes expenses unnecessary).netIncome -
        (calculateMemberSummary member incomes taxes expenses unnecessary).totalExpenses -
        (calculateMemberSummary member incomes taxes expenses
          unnecessary).totalUnnecessaryExpenses ∧
    (calculateMemberSummary FamilyMember.Nikkie [exSalaryIncome] [exTax] [exGroceries]
        []).grossIncome = 20000 ∧
    (calculateMemberSummary FamilyMember.Nikkie [exSalaryIncome] [exTax] [exGroceries]
        []).netIncome = 17000 ∧
    (calculateMemberSummary FamilyMember.Nikkie [exSalaryIncome] [exTax] [exGroceries]
        []).totalExpenses = 1500 ∧
    (calculateMemberSummary FamilyMember.Nikkie [exSalaryIncome] [exTax] [exGroceries]
        []).remainingBalance = 15500 := by
  refine ⟨?_, ?_, ?_, rfl, ?_, rfl,
    by norm_num [calculateMemberSummary, sumBy, exSalaryIncome, exTax, exGroceries, List.filter, salary_beq_other, other_beq_salary],
    by norm_num [calculateMemberSummary, sumBy, exSalaryIncome, exTax, exGroceries, List.filter, salary_beq_other, other_beq_salary],
    by norm_num [calculateMemberSummary, sumBy, exSalaryIncome, exTax, exGroceries, List.filter, salary_beq_other, other_beq_salary],
    by norm_num [calculateMemberSummary, sumBy, exSalaryIncome, exTax, exGroceries, List.filter, salary_beq_other, other_beq_salary]⟩
  · simp only [calculateMemberSummary, sumBy_eq_sum_map, List.filter_filter]
    exact congrArg List.sum (congrArg (List.map Income.amount)
      (List.filter_congr (fun i _ => Bool.and_comm _ _)))
  · simp only [calculateMemberSummary, sumBy_eq_sum_map, List.filter_filter]
    exact congrArg List.sum (congrArg (List.map Income.amount)
      (List.filter_congr (fun i _ => Bool.and_comm _ _)))
  · simp only [calculateMemberSummary, sumBy_eq_sum_map]
  · simp only [calculateMemberSummary, sumBy_eq_sum_map]

/-- C6: every numeric field of `calculateHouseholdSummary` is the sum
of the corresponding fields of the two member summaries it contains,
`remainingBalance` included. -/
theorem householdSummary_spec (incomes : List Income) (taxes : List Tax)
    (expenses : List Expense) (unnecessary : List UnnecessaryExpense) :
    let n := calculateMemberSummary FamilyMember.Nikkie incomes taxes expenses unnecessary
    let h := calculateMemberSummary FamilyMember.Hein incomes taxes expenses unnecessary
    let s := calculateHouseholdSummary incomes taxes expenses unnecessary
    s.grossIncome = n.grossIncome + h.grossIncome ∧
    s.otherIncome = n.otherIncome + h.otherIncome ∧
    s.totalIncome = n.totalIncome + h.totalIncome ∧
    s.totalTaxes = n.totalTaxes + h.totalTaxes ∧
    s.netIncome = n.netIncome + h.netIncome ∧
    s.totalExpenses = n.totalExpenses + h.totalExpenses ∧
    s.totalUnnecessaryExpenses = n.totalUnnecessaryExpenses + h.totalUnnecessaryExpenses ∧
    s.remainingBalance = n.remainingBalance + h.remainingBalance ∧
    s.nikkieSummary = n ∧
    s.heinSummary = h := by
  refine ⟨rfl, rfl, rfl, rfl, ?_, rfl, rfl, ?_, rfl, rfl⟩ <;>
    simp only [calculateHouseholdSummary, calculateMemberSummary] <;> ring

/-- C10: `calculateMemberSummary` depends only on the rows owned by the
given member — inputs that agree on that member's rows yield identical
summaries, whatever the other member's rows are. -/
theorem memberSummary_noninterference (member : FamilyMember)
    (i1 i2 : List Income) (t1 t2 : List Tax) (e1 e2 : List Expense)
    (u1 u2 : List UnnecessaryExpense)
    (hi : i1.filter (fun i => i.member == member) = i2.filter (fun i => i.member == member))
    (ht : t1.filter (fun t => t.member == member) = t2.filter (fun t => t.member == member))
    (he : e1.filter (fun e => e.member == member) = e2.filter (fun e => e.member == member))
    (hu : u1.filter (fun u => u.member == member) = u2.filter (fun u => u.member == member)) :
    calculateMemberSummary member i1 t1 e1 u1 = calculateMemberSummary member i2 t2 e2 u2 := by
  simp only [calculateMemberSummary, hi, ht, he, hu]

/-- Witness for C10: replacing Hein's salary by a very different one
leaves Nikkie's summary untouched. -/
theorem memberSummary_noninterference_witness :
    calculateMemberSummary FamilyMember.Nikkie
        [exSalaryIncome,
          { id := "h1", member := FamilyMember.Hein, income_type := IncomeType.Salary,
            description := "Salary", amount := 99999, month := ⟨2025, 1⟩,
            created_at := "t9" }]
        [exTax] [exGroceries] [] =
      calculateMemberSummary FamilyMember.Nikkie [exSalaryIncome] [exTax] [exGroceries] [] :=
  memberSummary_noninterference FamilyMember.Nikkie _ _ _ _ _ _ _ _
    (by decide) (by decide) (by decide) (by decide)

/-! ## Reconciliation view (worked example computations) -/

lemma exSchedule_eq : getBalanceForMonth exAccount ⟨2025, 3⟩ = 9000 := by
  norm_num [getBalanceForMonth, calculateCurrentBalance, monthsElapsed, jsDateNorm,
    exAccount, show Int.fdiv 0 12 = 0 from rfl, show Int.emod 0 12 = 0 from rfl,
    show Int.fdiv 2 12 = 0 from rfl, show Int.emod 2 12 = 2 from rfl]

lemma exActual_eq : getActualBalanceForMonth [exPaidExpense] exAccount ⟨2025, 3⟩ = 11500 := by
  norm_num [getActualBalanceForMonth, getTotalPaidUpToMonth, sumBy, exAccount,
    exPaidExpense, MonthKey.le, List.filter]

lemma exDiff_eq : projectionDiff [exPaidExpense] exAccount ⟨2025, 3⟩ = -2500 := by
  rw [projectionDiff, exSchedule_eq, exActual_eq]
  norm_num

lemma exBigActual_eq :
    getActualBalanceForMonth [exBigPaidExpense] exAccount ⟨2025, 3⟩ = 7000 := by
  norm_num [getActualBalanceForMonth, getTotalPaidUpToMonth, sumBy, exAccount,
    exBigPaidExpense, MonthKey.le, List.filter]

lemma exBigDiff_eq : projectionDiff [exBigPaidExpense] exAccount ⟨2025, 3⟩ = 2000 := by
  rw [projectionDiff, exSchedule_eq, exBigActual_eq]
  norm_num

/-- C7 counterexample: on the spec's worked example (schedule 9000,
actual 11500) the code's reported difference is `-2500`, and the code
classifies a negative difference as `ahead`, not `behind` — refuting
the claim's assertion that this example is classified as behind on
payments. -/
theorem reconciliation_label_counterexample :
    projectionDiff [exPaidExpense] exAccount ⟨2025, 3⟩ = -2500 ∧
    diffClass (projectionDiff [exPaidExpense] exAccount ⟨2025, 3⟩) ≠ "behind" := by
  refine ⟨exDiff_eq, ?_⟩
  rw [exDiff_eq, diffClass, if_neg (by norm_num)]
  decide

/-- C7 amended: the reconciliation view reports the signed difference
`schedule - actual` and labels a positive difference `behind` and a
negative difference `ahead`; on the spec's worked example (schedule
9000, actual 11500) the difference is `-2500` and it is classified as
`ahead`. -/
theorem reconciliation_label_spec (paidExpenses : List Expense)
    (account : BalanceAccount) (m : MonthKey) :
    (0 < projectionDiff paidExpenses account m →
      diffClass (projectionDiff paidExpenses account m) = "behind") ∧
    (projectionDiff paidExpenses account m < 0 →
      diffClass (projectionDiff paidExpenses account m) = "ahead") ∧
    projectionDiff paidExpenses account m =
      getBalanceForMonth account m - getActualBalanceForMonth paidExpenses account m ∧
    projectionDiff [exPaidExpense] exAccount ⟨2025, 3⟩ = -2500 ∧
    diffClass (projectionDiff [exPaidExpense] exAccount ⟨2025, 3⟩) = "ahead" := by
  refine ⟨?_, ?_, rfl, exDiff_eq, ?_⟩
  · intro h
    rw [diffClass, if_pos h]
  · intro h
    rw [diffClass, if_neg (by linarith)]
  · rw [exDiff_eq, diffClass, if_neg (by norm_num)]

/-- Witness for C7 (amended): a payment larger than the schedule gives
a positive difference labelled `behind`; the worked example's negative
difference is labelled `ahead`. -/
theorem reconciliation_label_spec_witness :
    diffClass (projectionDiff [exBigPaidExpense] exAccount ⟨2025, 3⟩) = "behind" ∧
    diffClass (projectionDiff [exPaidExpense] exAccount ⟨2025, 3⟩) = "ahead" :=
  ⟨(reconciliation_label_spec [exBigPaidExpense] exAccount ⟨2025, 3⟩).1
      (by rw [exBigDiff_eq]; norm_num),
    (reconciliation_label_spec [exPaidExpense] exAccount ⟨2025, 3⟩).2.1
      (by rw [exDiff_eq]; norm_num)⟩

/-- C8 (code bug): the unguarded progress percentage of
src/src/components/BalanceTracker.tsx follows the formula
`(initial - actual) / initial * 100` on a nonzero initial balance, but
on an account with `initial_balance = 0` the division yields a
non-number (modelled `none`), not the `0` the spec requires. -/
theorem progressPercentage_unguarded :
    progressPercentage exAccount 9000 = some 25 ∧
    progressPercentage zeroAccount (getActualBalanceForMonth [] zeroAccount ⟨2025, 3⟩) =
      none ∧
    (none : Option ℚ) ≠ some 0 := by
  refine ⟨?_, ?_, by decide⟩
  · norm_num [progressPercentage, jsDiv, exAccount]
  · norm_num [progressPercentage, jsDiv, zeroAccount]

/-- C3 (code bug): the manual carry-over payload keeps `member`,
`category`, `description`, `amount` and re-targets `month`, but drops
`is_shared`, `is_recurring`, `is_paid`, `note` and
`balance_account_id`; the inserted row therefore takes the store
defaults (`false` / `NULL`) for all of them, losing the source row's
values — here a recurring, shared, paid rent with a note and an account
link.  Running the carry twice still yields `2 * |E|` rows. -/
theorem carryOverExpenses_field_loss :
    carryOverExpensePayloads ⟨2025, 2⟩ [exRecurringRent] =
      [{ member := FamilyMember.Nikkie, category := "Housing", description := "Rent",
         amount := 8000, month := ⟨2025, 2⟩ }] ∧
    exRecurringRent.is_recurring = true ∧
    exRecurringRent.is_shared = true ∧
    exRecurringRent.is_paid = true ∧
    exRecurringRent.note = some "pay by the 1st" ∧
    exRecurringRent.balance_account_id = some "acc1" ∧
    (insertCarriedExpense
        { member := FamilyMember.Nikkie, category := "Housing", description := "Rent",
          amount := 8000, month := ⟨2025, 2⟩ } "fresh1" "t9").is_recurring = false ∧
    (insertCarriedExpense
        { member := FamilyMember.Nikkie, category := "Housing", description := "Rent",
          amount := 8000, month := ⟨2025, 2⟩ } "fresh1" "t9").is_shared = false ∧
    (insertCarriedExpense
        { member := FamilyMember.Nikkie, category := "Housing", description := "Rent",
          amount := 8000, month := ⟨2025, 2⟩ } "fresh1" "t9").is_paid = false ∧
    (insertCarriedExpense
        { member := FamilyMember.Nikkie, category := "Housing", description := "Rent",
          amount := 8000, month := ⟨2025, 2⟩ } "fresh1" "t9").note = none ∧
    (insertCarriedExpense
        { member := FamilyMember.Nikkie, category := "Housing", description := "Rent",
          amount := 8000, month := ⟨2025, 2⟩ } "fresh1" "t9").balance_account_id = none ∧
    (carryOverExpensePayloads ⟨2025, 2⟩ [exRecurringRent] ++
        carryOverExpensePayloads ⟨2025, 2⟩ [exRecurringRent]).length = 2 * 1 :=
  ⟨rfl, rfl, rfl, rfl, rfl, rfl, rfl, rfl, rfl, rfl, rfl, rfl⟩

/-- C4: when an empty month not yet in the session guard set is
selected, the month is added to the guard set before the carry-forward
attempt starts (the attempt runs with the month in the set); if the
attempt fails at any fetch or insert, the month is no longer in the
guard set afterwards (so a later selection retries), while on success
it remains; and a failure at the tax insert leaves the income rows
already inserted in the same attempt in place — no rollback. -/
theorem autoCarry_guard_spec (carried : List MonthKey) (m : MonthKey) (env : CarryEnv)
    (hnotin : carried.contains m = false) :
    fetchDataCarryStep carried m true env =
      autoCarryForwardFromPreviousMonth (m :: carried) m env ∧
    ((fetchDataCarryStep carried m true env).success = false →
      (fetchDataCarryStep carried m true env).carriedMonths.contains m = false) ∧
    ((fetchDataCarryStep carried m true env).success = true →
      (fetchDataCarryStep carried m true env).carriedMonths.contains m = true) ∧
    (env.fetchOk = true → env.insertIncomesOk = true → env.insertTaxesOk = false →
      env.prevIncomes ≠ [] → env.prevTaxes ≠ [] →
      (fetchDataCarryStep carried m true env).success = false ∧
      (fetchDataCarryStep carried m true env).insertedIncomes =
        autoIncomePayloads m env.prevIncomes) := by
  have hstep : fetchDataCarryStep carried m true env =
      autoCarryForwardFromPreviousMonth (m :: carried) m env := by
    unfold fetchDataCarryStep
    rw [hnotin]
    rfl
  obtain ⟨fo, pi, pt, pe, iok, tok, eok⟩ := env
  refine ⟨hstep, ?_, ?_, ?_⟩
  · rw [hstep]
    cases fo <;> cases iok <;> cases tok <;> cases eok <;> cases pi <;> cases pt <;>
      cases pe <;> simp_all [autoCarryForwardFromPreviousMonth, autoIncomePayloads,
        autoTaxPayloads, autoExpensePayloads]
  · rw [hstep]
    cases fo <;> cases iok <;> cases tok <;> cases eok <;> cases pi <;> cases pt <;>
      cases pe <;> simp_all [autoCarryForwardFromPreviousMonth, autoIncomePayloads,
        autoTaxPayloads, autoExpensePayloads]
  · intro h1 h2 h3 h4 h5
    rw [hstep]
    subst h1 h2 h3
    cases pi with
    | nil => exact absurd rfl h4
    | cons a l =>
      cases pt with
      | nil => exact absurd rfl h5
      | cons b l2 =>
        simp [autoCarryForwardFromPreviousMonth, autoIncomePayloads, autoTaxPayloads]

/-- A concrete failing attempt: the previous month holds one income and
one tax row, the income insert succeeds and the tax insert fails. -/
def exCarryEnv : CarryEnv :=
  { fetchOk := true, prevIncomes := [exSalaryIncome], prevTaxes := [exTax],
    prevExpenses := [exGroceries], insertIncomesOk := true, insertTaxesOk := false,
    insertExpensesOk := true }

/-- Witness for C4: on the concrete failing attempt the month `2025-02`
is out of the guard set afterwards, yet the income row inserted before
the failing tax insert is in the store. -/
theorem autoCarry_guard_spec_witness :
    (fetchDataCarryStep [] ⟨2025, 2⟩ true exCarryEnv).success = false ∧
    (fetchDataCarryStep [] ⟨2025, 2⟩ true exCarryEnv).insertedIncomes =
      autoIncomePayloads ⟨2025, 2⟩ [exSalaryIncome] ∧
    (fetchDataCarryStep [] ⟨2025, 2⟩ true exCarryEnv).carriedMonths.contains
      ⟨2025, 2⟩ = false := by
  have h := autoCarry_guard_spec [] ⟨2025, 2⟩ exCarryEnv rfl
  have h4 := h.2.2.2 rfl rfl rfl (by simp [exCarryEnv]) (by simp [exCarryEnv])
  exact ⟨h4.1, h4.2, h.2.1 h4.1⟩

end FamBudget
